import Mathlib

/-!
Verification of the EDGE / Sentinel-LEWS landslide-risk engine against its
specification.  The Python sources are shallowly embedded: float arithmetic is
idealised as exact arithmetic (`ℚ` where the code is pure rational arithmetic,
`ℝ` where transcendental functions appear); the float result NaN, produced by
a `0/0` division, is modelled by `Option.none`; vectorized numpy operations
are modelled per cell (elementwise) or as list maps.
-/

namespace EDGE

/-- `max` of a non-empty collection, as `np.max` / Python `max` compute it on
a non-empty array (the empty case, which numpy rejects, defaults to 0). -/
def listMax {α : Type} [LinearOrder α] [Zero α] : List α → α
  | [] => 0
  | x :: xs => xs.foldl max x

/-- One station rainfall reading: `{"id", "lat", "lon", "val"}`
(`run_live_sim.py`); the id plays no computational role. -/
structure Station where
  slat : ℚ
  slon : ℚ
  val : ℚ
  deriving DecidableEq, Repr

/-- Insert into a sorted list (ascending). -/
def insertSorted (x : ℚ) : List ℚ → List ℚ
  | [] => [x]
  | y :: ys => if x ≤ y then x :: y :: ys else y :: insertSorted x ys

/-- Sort a list of rationals ascending (insertion sort). -/
def sortList (l : List ℚ) : List ℚ := l.foldr insertSorted []

/-- Statistical median: middle element of the sorted values for odd length,
mean of the two middle elements for even length, 0 for the empty list. -/
def median (l : List ℚ) : ℚ :=
  let s := sortList l
  let n := s.length
  if n = 0 then 0
  else if n % 2 = 1 then s.getD (n / 2) 0
  else (s.getD (n / 2 - 1) 0 + s.getD (n / 2) 0) / 2

/-- Modelled from the spec: `SensorFusionEngine.filter_anomalies`.  The real
`sentinal.src.core.fusion` module is absent from the repository sources (the
live-simulation script only carries a pass-through stub used on import
failure), so the filter is modelled from the spec's stated policy: compute
the median of the cycle's reading values and discard exactly those readings
whose value exceeds `max(median * K, CEILING)` with `K = 4` and
`CEILING = 200` mm/hr, preserving input order. -/
def filter_anomalies (readings : List Station) : List Station :=
  let m := median (readings.map Station.val)
  readings.filter (fun r => r.val ≤ max (m * 4) 200)

/-- Inverse-distance-weighted accumulation for one grid cell
(`run_live_sim.py`): `for s in clean: rain_grid += s.val / max(d2, 1e-6)`
where `d2 = (lat - s.lat)^2 + (lon - s.lon)^2`. -/
def idwRaw (clean : List Station) (cell : ℚ × ℚ) : ℚ :=
  clean.foldl
    (fun acc s =>
      acc + s.val / max ((cell.1 - s.slat) ^ 2 + (cell.2 - s.slon) ^ 2)
        (1 / 1000000)) 0

/-- The Spatial Interpolator of `run_live_sim.py`:
`if not clean: rain_grid = zeros` else accumulate IDW contributions, then
`rain_grid /= np.max(rain_grid); rain_grid *= max(s.val for s in clean)`.
When `np.max(rain_grid) = 0` the float code computes `0/0 = NaN` for every
cell; that undefined field is modelled as `none`. -/
def interpolate (clean : List Station) (cells : List (ℚ × ℚ)) :
    Option (List ℚ) :=
  if clean = [] then some (cells.map fun _ => 0)
  else
    let raw := cells.map (idwRaw clean)
    let m := listMax raw
    if m = 0 then none
    else some (raw.map fun x => x / m * listMax (clean.map Station.val))

noncomputable section

/-- `np.clip(x, lo, hi)` over the reals: numpy documents it as
`np.minimum(hi, np.maximum(x, lo))` (elementwise; here per cell). -/
def npClipR (x lo hi : ℝ) : ℝ := min hi (max x lo)

/-- `np.radians(d)`. -/
def radians (d : ℝ) : ℝ := d * Real.pi / 180

/-- `compute_fos_vectorized` (`fos.py`), per cell.  The source is a numpy
elementwise computation over 1D arrays; this is the scalar function it
applies to each cell.  `elevation` is accepted by the source function but
never used, exactly as here.  The `ksat` scalar/array branch
(`np.minimum ... if np.ndim(ksat) > 0 else min ...`) computes `min` either
way. -/
def compute_fos (slope_deg elevation : ℝ) (c phi_deg gamma z ksat : ℝ)
    (current_saturation : ℝ) (rainfall_intensity_mmph : ℝ)
    (duration_hours : ℝ) : ℝ :=
  let slope_rad := radians (npClipR slope_deg 0.1 89.9)
  let sin_a := Real.sin slope_rad
  let cos_a := Real.cos slope_rad
  let tan_phi := Real.tan (radians phi_deg)
  let rain_rate_ms := rainfall_intensity_mmph * 2.777e-7
  let duration_s := duration_hours * 3600.0
  let ne := 0.3
  let inf_rate := min rain_rate_ms ksat
  let infiltration_depth_m := inf_rate * duration_s
  let h_w_rise := infiltration_depth_m / ne
  let h_w_initial := current_saturation * z
  let h_w := npClipR (h_w_initial + h_w_rise) 0.0 z
  let sigma_n := gamma * z * cos_a ^ 2
  let u := 9.81 * h_w * cos_a ^ 2
  let sigma_prime := max (sigma_n - u) 0.0
  let tau := gamma * z * sin_a * cos_a
  let resisting := c + sigma_prime * tan_phi
  let driving := max tau 1e-5
  npClipR (resisting / driving) 0.0 10.0

/-- The shared logistic risk template `1 / (1 + exp (k * (fos - x0)))`. -/
def logistic (k x0 fos : ℝ) : ℝ := 1 / (1 + Real.exp (k * (fos - x0)))

/-- Risk transform of the live simulation (`run_live_sim.py`):
`risk = 1.0 / (1.0 + np.exp(10.0 * (fos - 1.0)))`, per cell. -/
def riskLive (fos : ℝ) : ℝ := 1 / (1 + Real.exp (10.0 * (fos - 1.0)))

/-- Risk transform of the historical backtest (`run_backtest.py`):
`risk = 1.0 / (1.0 + np.exp(5.0 * (fos_values - 1.1)))`, per cell. -/
def riskBacktest (fos : ℝ) : ℝ := 1 / (1 + Real.exp (5.0 * (fos - 1.1)))

/-- The Saturation Tracker update of `run_live_sim.py`, per cell:
`added_sat = (rain_grid / 100.0) * 0.08;`
`saturation = saturation * decay_rate + added_sat` with `decay_rate = 0.985`;
`saturation = np.clip(saturation, 0.05, 1.0)`. -/
def satUpdate (prev rain : ℝ) : ℝ :=
  npClipR (prev * 0.985 + rain / 100.0 * 0.08) 0.05 1.0

/-- Static per-cell attributes of the grid, loaded once and never mutated. -/
structure CellStatic where
  slope : ℝ
  elevation : ℝ
  c : ℝ
  phi : ℝ
  gamma : ℝ
  depth : ℝ
  ksat : ℝ

/-- Steps 3–4 of one live-simulation cycle (`run_live_sim.py`): update the
per-cell saturation from the interpolated rainfall field, then call the
Stability Model with `rainfall_intensity_mmph = rain_grid.max()` — a single
scalar shared by every cell — and `duration_hours = 6.0`. -/
def liveCycleFos (cells : List CellStatic) (prev rain : List ℝ) : List ℝ :=
  let saturation := List.zipWith satUpdate prev rain
  List.zipWith
    (fun cell s =>
      compute_fos cell.slope cell.elevation cell.c cell.phi cell.gamma
        cell.depth cell.ksat s (listMax rain) 6.0)
    cells saturation

end

/-- The record returned by the web-mode entry points: a status string plus
the accumulated textual log. -/
structure WebResult where
  status : String
  logs : String
  deriving DecidableEq, Repr

/-- Exception-handling control flow of `backtest_event` (`run_backtest.py`):
the dataset lookup and the try/except body are abstracted; the body — the
whole per-month computation — is an `Except` value carrying either the
accumulated log on completion or the message of the exception it raised.
A missing dataset yields `{"status": "Error", "logs": ...}` before the try
block; a caught exception yields status `"Error"` with the log accumulated
so far; completion yields status `"Success"` with the full log. -/
def backtest_event (datasetFound : Bool) (body : Except String String)
    (logSoFar : String) : WebResult :=
  if datasetFound = false then ⟨"Error", logSoFar ++ "Dataset not found!"⟩
  else
    match body with
    | .ok log => ⟨"Success", log⟩
    | .error e => ⟨"Error", logSoFar ++ "Execution Error: " ++ e⟩

/-- Exception-handling control flow of `run_live_simulation` in web mode
(`run_live_sim.py`), abstracted the same way as `backtest_event`: missing
dataset → `Error` record; exception caught by `except Exception` → `Error`
record with the captured output; loop completion → `Success` record. -/
def run_live_simulation_web (datasetFound : Bool)
    (body : Except String String) (logSoFar : String) : WebResult :=
  if datasetFound = false then ⟨"Error", logSoFar ++ "Dataset missing."⟩
  else
    match body with
    | .ok log => ⟨"Success", log⟩
    | .error e => ⟨"Error", logSoFar ++ "Error during simulation: " ++ e⟩

/-- Exception-handling control flow of `run_demo_event` in web mode
(`run_quick_demo.py`), abstracted the same way. -/
def run_demo_event_web (datasetFound : Bool) (body : Except String String)
    (logSoFar : String) : WebResult :=
  if datasetFound = false then
    ⟨"Error", logSoFar ++ "Error: Dataset not found"⟩
  else
    match body with
    | .ok log => ⟨"Success", log⟩
    | .error e => ⟨"Error", logSoFar ++ "Execution Error: " ++ e⟩

/-! ### Helper lemmas -/

lemma foldl_max_init {α : Type} [LinearOrder α] (xs : List α) (a : α) :
    a ≤ xs.foldl max a := by
  induction xs generalizing a with
  | nil => exact le_rfl
  | cons y ys ih => exact le_trans (le_max_left a y) (ih (max a y))

lemma foldl_max_le {α : Type} [LinearOrder α] {xs : List α} {x : α} (a : α)
    (hx : x ∈ xs) : x ≤ xs.foldl max a := by
  induction xs generalizing a with
  | nil => cases hx
  | cons y ys ih =>
    rcases List.mem_cons.mp hx with h | h
    · subst h
      exact le_trans (le_max_right a x) (foldl_max_init ys _)
    · exact ih _ h

lemma foldl_max_choice {α : Type} [LinearOrder α] (xs : List α) (a : α) :
    xs.foldl max a = a ∨ xs.foldl max a ∈ xs := by
  induction xs generalizing a with
  | nil => exact Or.inl rfl
  | cons y ys ih =>
    rcases ih (max a y) with h | h
    · rcases max_choice a y with hm | hm
      · exact Or.inl (by rw [List.foldl_cons, h, hm])
      · refine Or.inr ?_
        rw [List.foldl_cons, h, hm]
        exact List.mem_cons_self y ys
    · exact Or.inr (List.mem_cons_of_mem y h)

lemma le_listMax {α : Type} [LinearOrder α] [Zero α] {l : List α} {x : α}
    (hx : x ∈ l) : x ≤ listMax l := by
  cases l with
  | nil => cases hx
  | cons y ys =>
    rcases List.mem_cons.mp hx with h | h
    · subst h
      exact foldl_max_init ys x
    · exact foldl_max_le y h

lemma listMax_mem {α : Type} [LinearOrder α] [Zero α] {l : List α}
    (h : l ≠ []) : listMax l ∈ l := by
  cases l with
  | nil => exact absurd rfl h
  | cons y ys =>
    rcases foldl_max_choice ys y with h1 | h1
    · rw [show listMax (y :: ys) = ys.foldl max y from rfl, h1]
      exact List.mem_cons_self y ys
    · exact List.mem_cons_of_mem y h1

lemma listMax_eq_of_mem_of_le {α : Type} [LinearOrder α] [Zero α]
    {l : List α} {b : α} (hb : b ∈ l) (hall : ∀ x ∈ l, x ≤ b) :
    listMax l = b := by
  refine le_antisymm (hall _ (listMax_mem ?_)) (le_listMax hb)
  rintro rfl
  cases hb

lemma logistic_bounds (k x0 x : ℝ) :
    0 ≤ logistic k x0 x ∧ logistic k x0 x ≤ 1 := by
  have h := Real.exp_pos (k * (x - x0))
  unfold logistic
  constructor
  · positivity
  · rw [div_le_one (by linarith)]
    linarith

lemma riskLive_as_logistic (fos : ℝ) : riskLive fos = logistic 10 1 fos := by
  norm_num [riskLive, logistic]

lemma riskBacktest_as_logistic (fos : ℝ) :
    riskBacktest fos = logistic 5 1.1 fos := by
  norm_num [riskBacktest, logistic]

lemma liveCycleFos_getD (cells : List CellStatic) (prev rain : List ℝ)
    (i : ℕ) (hc : i < cells.length) (hp : i < prev.length)
    (hr : i < rain.length) :
    (liveCycleFos cells prev rain).getD i 0
      = compute_fos (cells.getD i ⟨0, 0, 0, 0, 0, 0, 0⟩).slope
          (cells.getD i ⟨0, 0, 0, 0, 0, 0, 0⟩).elevation
          (cells.getD i ⟨0, 0, 0, 0, 0, 0, 0⟩).c
          (cells.getD i ⟨0, 0, 0, 0, 0, 0, 0⟩).phi
          (cells.getD i ⟨0, 0, 0, 0, 0, 0, 0⟩).gamma
          (cells.getD i ⟨0, 0, 0, 0, 0, 0, 0⟩).depth
          (cells.getD i ⟨0, 0, 0, 0, 0, 0, 0⟩).ksat
          (satUpdate (prev.getD i 0) (rain.getD i 0)) (listMax rain) 6.0 := by
  have hlen : i < (liveCycleFos cells prev rain).length := by
    simp only [liveCycleFos, List.length_zipWith]
    exact lt_min hc (lt_min hp hr)
  rw [List.getD_eq_getElem _ _ hlen, List.getD_eq_getElem cells _ hc,
    List.getD_eq_getElem prev _ hp, List.getD_eq_getElem rain _ hr]
  simp only [liveCycleFos, List.getElem_zipWith]

/-! ### Claim theorems -/

/-- C1: for every cell and every input, the FoS returned by the Stability
Model (`compute_fos_vectorized`) lies in [0, 10], and the live Risk
Generator's logistic transform of that FoS lies in [0, 1]. -/
theorem C1_fos_in_unit_interval_risk_in_01
    (slope elev c phi gamma z ksat sat rain dur : ℝ) :
    (0 ≤ compute_fos slope elev c phi gamma z ksat sat rain dur ∧
      compute_fos slope elev c phi gamma z ksat sat rain dur ≤ 10) ∧
    (0 ≤ riskLive (compute_fos slope elev c phi gamma z ksat sat rain dur) ∧
      riskLive (compute_fos slope elev c phi gamma z ksat sat rain dur) ≤ 1) := by
  constructor
  · unfold compute_fos npClipR
    constructor
    · positivity
    · exact le_trans (min_le_left _ _) (by norm_num)
  · rw [riskLive_as_logistic]
    exact logistic_bounds 10 1 _

/-- C2: the Saturation Tracker's one-cycle update equals
`clamp(prev * 0.985 + (rain / 100) * 0.08, 0.05, 1.0)` per cell, and its
result always lies in [0.05, 1.0], for every previous saturation and every
rainfall value. -/
theorem C2_saturation_update_clamped (prev rain : ℝ) :
    satUpdate prev rain
        = min 1 (max (prev * 0.985 + rain / 100 * 0.08) 0.05) ∧
    0.05 ≤ satUpdate prev rain ∧ satUpdate prev rain ≤ 1 := by
  unfold satUpdate npClipR
  refine ⟨by norm_num, ?_, ?_⟩
  · exact le_min (by norm_num) (le_max_right _ _)
  · exact le_trans (min_le_left _ _) (by norm_num)

/-- C7: in `compute_fos_vectorized` the infiltration rate is
`min(rain_rate_m_s, ksat)`; once the rainfall intensity converted to m/s
reaches `ksat`, any further increase of the rainfall intensity leaves the
returned FoS unchanged. -/
theorem C7_infiltration_capped_by_ksat
    (slope elev c phi gamma z ksat sat dur rain1 rain2 : ℝ)
    (hk : ksat ≤ rain1 * 2.777e-7) (h12 : rain1 ≤ rain2) :
    min (rain1 * 2.777e-7) ksat = ksat ∧
    compute_fos slope elev c phi gamma z ksat sat rain2 dur
      = compute_fos slope elev c phi gamma z ksat sat rain1 dur := by
  have hmono : rain1 * 2.777e-7 ≤ rain2 * 2.777e-7 := by
    have : (0:ℝ) ≤ 2.777e-7 := by norm_num
    nlinarith
  have h1 : min (rain1 * 2.777e-7) ksat = ksat := min_eq_right hk
  have h2 : min (rain2 * 2.777e-7) ksat = ksat :=
    min_eq_right (le_trans hk hmono)
  refine ⟨h1, ?_⟩
  simp only [compute_fos, h1, h2]

/-- C7 witness: with `ksat = 1e-6` m/s and rainfall 50 mm/hr the converted
rain rate already exceeds `ksat`, so raising the rainfall to 100 mm/hr does
not change the FoS. -/
theorem C7_witness :
    ((1e-6:ℝ) ≤ 50 * 2.777e-7 ∧ (50:ℝ) ≤ 100) ∧
    compute_fos 30 1000 10 30 18 2 1e-6 0.2 100 6
      = compute_fos 30 1000 10 30 18 2 1e-6 0.2 50 6 :=
  ⟨⟨by norm_num, by norm_num⟩,
    (C7_infiltration_capped_by_ksat 30 1000 10 30 18 2 1e-6 0.2 6 50 100
      (by norm_num) (by norm_num)).2⟩

/-- C8 counterexample: at `fos = 0` the backtest transform
(`run_backtest.py`: `1 / (1 + exp(5 * (fos - 1.1)))`) differs from the
claimed `1 / (1 + exp(5 * (fos - 1)))`: the offset is 1.1, not 1. -/
theorem C8_counterexample :
    riskBacktest 0 ≠ 1 / (1 + Real.exp (5 * ((0:ℝ) - 1))) := by
  have h1 : Real.exp (5.0 * ((0:ℝ) - 1.1)) < Real.exp (5 * ((0:ℝ) - 1)) :=
    Real.exp_lt_exp.mpr (by norm_num)
  have h2 := Real.exp_pos (5.0 * ((0:ℝ) - 1.1))
  have h3 := Real.exp_pos (5 * ((0:ℝ) - 1))
  unfold riskBacktest
  intro h
  rw [div_eq_div_iff (by linarith) (by linarith)] at h
  nlinarith

/-- C8 (amended): both contexts use the logistic curve
`1 / (1 + exp(k * (fos - x0)))`, with `k = 10`, `x0 = 1` in live monitoring
and `k = 5`, `x0 = 1.1` in historical backtesting (both the steepness and
the offset differ between the two contexts). -/
theorem C8_risk_transforms (fos : ℝ) :
    riskLive fos = logistic 10 1 fos ∧
    riskBacktest fos = logistic 5 1.1 fos :=
  ⟨riskLive_as_logistic fos, riskBacktest_as_logistic fos⟩

/-- C9: the three web-facing entry points always return a record whose
status is `"Error"` or `"Success"`: `"Error"` with the accumulated log on a
missing dataset or on an exception raised by the computation, `"Success"`
with the accumulated log on completion. -/
theorem C9_entry_points_never_raise (body : Except String String)
    (e log pre : String) :
    ((backtest_event false body pre).status = "Error" ∧
      (backtest_event true (Except.error e) pre).status = "Error" ∧
      backtest_event true (Except.ok log) pre = ⟨"Success", log⟩) ∧
    ((run_live_simulation_web false body pre).status = "Error" ∧
      (run_live_simulation_web true (Except.error e) pre).status = "Error" ∧
      run_live_simulation_web true (Except.ok log) pre = ⟨"Success", log⟩) ∧
    ((run_demo_event_web false body pre).status = "Error" ∧
      (run_demo_event_web true (Except.error e) pre).status = "Error" ∧
      run_demo_event_web true (Except.ok log) pre = ⟨"Success", log⟩) ∧
    (∀ (found : Bool) (b : Except String String) (p : String),
      ((backtest_event found b p).status = "Error" ∨
        (backtest_event found b p).status = "Success") ∧
      ((run_live_simulation_web found b p).status = "Error" ∨
        (run_live_simulation_web found b p).status = "Success") ∧
      ((run_demo_event_web found b p).status = "Error" ∨
        (run_demo_event_web found b p).status = "Success")) := by
  refine ⟨⟨rfl, rfl, rfl⟩, ⟨rfl, rfl, rfl⟩, ⟨rfl, rfl, rfl⟩, ?_⟩
  intro found b p
  cases found <;> cases b <;>
    simp [backtest_event, run_live_simulation_web, run_demo_event_web]

/-- C4: the Anomaly Filter keeps exactly the readings whose value is at most
`max(median * 4, 200)` (an order-preserving subsequence of its input), and
on the spec's fixtures it drops the 9999 spike from `[20, 22, 18, 9999]` and
keeps all of `[30, 30, 30]`. -/
theorem C4_anomaly_filter_median_policy :
    (∀ readings : List Station,
      List.Sublist (filter_anomalies readings) readings ∧
      ∀ r : Station,
        r ∈ filter_anomalies readings ↔
          r ∈ readings ∧
            r.val ≤ max (median (readings.map Station.val) * 4) 200) ∧
    filter_anomalies [⟨0, 0, 20⟩, ⟨0, 0, 22⟩, ⟨0, 0, 18⟩, ⟨0, 0, 9999⟩]
      = [⟨0, 0, 20⟩, ⟨0, 0, 22⟩, ⟨0, 0, 18⟩] ∧
    filter_anomalies [⟨0, 0, 30⟩, ⟨0, 0, 30⟩, ⟨0, 0, 30⟩]
      = [⟨0, 0, 30⟩, ⟨0, 0, 30⟩, ⟨0, 0, 30⟩] := by
  refine ⟨fun readings => ⟨List.filter_sublist _, fun r => ?_⟩, ?_, ?_⟩
  · rw [filter_anomalies, List.mem_filter]
    simp
  · norm_num [filter_anomalies, median, sortList, insertSorted, listMax,
      List.filter]
  · norm_num [filter_anomalies, median, sortList, insertSorted, listMax,
      List.filter]

/-- C10: in each live-simulation cycle the Stability Model receives the
single scalar `rain_grid.max()` as its rainfall intensity: the FoS of cell
`i` equals `compute_fos` applied to that cell's static attributes, its
updated saturation `satUpdate prev[i] rain[i]`, and the field maximum; hence
two rainfall fields with the same maximum and the same value at cell `i`
yield the same FoS at cell `i`, whatever their values elsewhere. -/
theorem C10_fos_uses_scalar_max_rainfall (cells : List CellStatic)
    (prev rain1 rain2 : List ℝ) (i : ℕ)
    (hc : i < cells.length) (hp : i < prev.length)
    (hr1 : i < rain1.length) (hr2 : i < rain2.length)
    (hmax : listMax rain1 = listMax rain2)
    (hcell : rain1.getD i 0 = rain2.getD i 0) :
    (liveCycleFos cells prev rain1).getD i 0
        = compute_fos (cells.getD i ⟨0, 0, 0, 0, 0, 0, 0⟩).slope
            (cells.getD i ⟨0, 0, 0, 0, 0, 0, 0⟩).elevation
            (cells.getD i ⟨0, 0, 0, 0, 0, 0, 0⟩).c
            (cells.getD i ⟨0, 0, 0, 0, 0, 0, 0⟩).phi
            (cells.getD i ⟨0, 0, 0, 0, 0, 0, 0⟩).gamma
            (cells.getD i ⟨0, 0, 0, 0, 0, 0, 0⟩).depth
            (cells.getD i ⟨0, 0, 0, 0, 0, 0, 0⟩).ksat
            (satUpdate (prev.getD i 0) (rain1.getD i 0)) (listMax rain1)
            6.0 ∧
    (liveCycleFos cells prev rain1).getD i 0
        = (liveCycleFos cells prev rain2).getD i 0 := by
  refine ⟨liveCycleFos_getD cells prev rain1 i hc hp hr1, ?_⟩
  rw [liveCycleFos_getD cells prev rain1 i hc hp hr1,
    liveCycleFos_getD cells prev rain2 i hc hp hr2, hmax, hcell]

/-- C10 witness: with one cell, previous saturation `[0.2]` and the two
rainfall fields `[7, 3]` and `[7, 1]` (equal maximum 7, equal value 7 at
cell 0), the cycle produces the same FoS at cell 0. -/
theorem C10_witness :
    ((0:ℕ) < 1 ∧ listMax [(7:ℝ), 3] = listMax [(7:ℝ), 1] ∧
      [(7:ℝ), 3].getD 0 0 = [(7:ℝ), 1].getD 0 0) ∧
    (liveCycleFos [⟨45, 2000, 10, 30, 18, 2, 1e-6⟩] [0.2] [(7:ℝ), 3]).getD 0 0
      = (liveCycleFos [⟨45, 2000, 10, 30, 18, 2, 1e-6⟩] [0.2]
          [(7:ℝ), 1]).getD 0 0 := by
  have hmax : listMax [(7:ℝ), 3] = listMax [(7:ℝ), 1] := by
    show max 7 3 = max (7:ℝ) 1
    rw [max_eq_left (by norm_num), max_eq_left (by norm_num)]
  refine ⟨⟨by norm_num, hmax, rfl⟩, ?_⟩
  exact (C10_fos_uses_scalar_max_rainfall
    [⟨45, 2000, 10, 30, 18, 2, 1e-6⟩] [0.2] [(7:ℝ), 3] [(7:ℝ), 1] 0
    (by norm_num) (by norm_num) (by norm_num) (by norm_num) hmax rfl).2

/-- C5 counterexample: for a single station whose reported value is `V = 0`
placed exactly at the only grid cell's coordinates, the interpolated field
is undefined (the rescale divides `0/0`, a float NaN, modelled `none`), so
the cell's value does not equal `V`. -/
theorem C5_counterexample :
    ¬ ∃ field : List ℚ,
        interpolate [⟨1, 2, 0⟩] [(1, 2)] = some field ∧
          field.getD 0 0 = 0 := by
  have h : interpolate [⟨1, 2, 0⟩] [(1, 2)] = none := by
    norm_num [interpolate, idwRaw, listMax]
  rintro ⟨field, hf, _⟩
  rw [h] at hf
  cases hf

/-- C5 (amended): for every empty filtered reading set the output field is
all zero; and for a single station reading of positive value `V > 0` located
exactly at grid cell `i`'s coordinates, the field is defined, cell `i`'s
value equals `V` exactly, and the field's peak equals `V`, the maximum
reported station value. -/
theorem C5_interpolator_exact (cells : List (ℚ × ℚ)) (sx sy v : ℚ) (i : ℕ)
    (hi : i < cells.length) (hcoord : cells.getD i (0, 0) = (sx, sy))
    (hv : 0 < v) :
    (∀ cs : List (ℚ × ℚ), interpolate [] cs = some (cs.map fun _ => 0)) ∧
    ∃ field : List ℚ,
      interpolate [⟨sx, sy, v⟩] cells = some field ∧
        field.getD i 0 = v ∧ listMax field = v := by
  refine ⟨fun cs => by simp [interpolate], ?_⟩
  have hb : (0:ℚ) < v * 1000000 := by positivity
  have hci : cells[i] = (sx, sy) := by
    rw [← List.getD_eq_getElem cells (0, 0) hi]
    exact hcoord
  have hAi : idwRaw [⟨sx, sy, v⟩] (sx, sy) = v * 1000000 := by
    simp [idwRaw]
  have hbound : ∀ cell ∈ cells,
      idwRaw [⟨sx, sy, v⟩] cell ≤ v * 1000000 := by
    rintro ⟨a, b⟩ _
    have h1 : idwRaw [⟨sx, sy, v⟩] (a, b)
        = v / max ((a - sx) ^ 2 + (b - sy) ^ 2) (1 / 1000000) := by
      simp [idwRaw]
    have h2 : v / max ((a - sx) ^ 2 + (b - sy) ^ 2) (1 / 1000000)
        ≤ v / (1 / 1000000) := by
      gcongr
      exact le_max_right _ _
    have h3 : v / ((1:ℚ) / 1000000) = v * 1000000 := by
      rw [div_eq_mul_inv]
      norm_num
    rw [h1]
    rw [h3] at h2
    exact h2
  have hmem : v * 1000000 ∈ cells.map (idwRaw [⟨sx, sy, v⟩]) := by
    rw [← hAi, ← hci]
    exact List.mem_map_of_mem _ (List.getElem_mem hi)
  have hall : ∀ x ∈ cells.map (idwRaw [⟨sx, sy, v⟩]), x ≤ v * 1000000 := by
    intro x hx
    rcases List.mem_map.mp hx with ⟨cell, hcell, rfl⟩
    exact hbound cell hcell
  have hm : listMax (cells.map (idwRaw [⟨sx, sy, v⟩])) = v * 1000000 :=
    listMax_eq_of_mem_of_le hmem hall
  have hm0 : listMax (cells.map (idwRaw [⟨sx, sy, v⟩])) ≠ 0 := by
    rw [hm]
    exact ne_of_gt hb
  have hinterp : interpolate [⟨sx, sy, v⟩] cells
      = some ((cells.map (idwRaw [⟨sx, sy, v⟩])).map
          fun x => x / listMax (cells.map (idwRaw [⟨sx, sy, v⟩])) * v) := by
    simp only [interpolate]
    rw [if_neg (by simp : ¬([⟨sx, sy, v⟩] : List Station) = [])]
    rw [if_neg hm0]
    rfl
  refine ⟨_, hinterp, ?_, ?_⟩
  · have hlen : i < ((cells.map (idwRaw [⟨sx, sy, v⟩])).map
        fun x => x / listMax (cells.map (idwRaw [⟨sx, sy, v⟩])) * v).length := by
      simpa using hi
    rw [List.getD_eq_getElem _ _ hlen, List.getElem_map, List.getElem_map,
      hci, hAi, hm, div_self (ne_of_gt hb), one_mul]
  · have hlen : i < ((cells.map (idwRaw [⟨sx, sy, v⟩])).map
        fun x => x / listMax (cells.map (idwRaw [⟨sx, sy, v⟩])) * v).length := by
      simpa using hi
    refine listMax_eq_of_mem_of_le ?_ ?_
    · have : ((cells.map (idwRaw [⟨sx, sy, v⟩])).map
          fun x => x / listMax (cells.map (idwRaw [⟨sx, sy, v⟩])) * v)[i]
            = v := by
        rw [List.getElem_map, List.getElem_map, hci, hAi, hm,
          div_self (ne_of_gt hb), one_mul]
      have h5 := List.getElem_mem hlen
      rwa [this] at h5
    · intro x hx
      rcases List.mem_map.mp hx with ⟨y, hy, rfl⟩
      have hy_le : y ≤ v * 1000000 := by
        rw [← hm]
        exact le_listMax hy
      rw [hm]
      calc y / (v * 1000000) * v ≤ 1 * v := by
            refine mul_le_mul_of_nonneg_right ?_ hv.le
            exact (div_le_one hb).mpr hy_le
        _ = v := one_mul v

/-- C5 witness: a two-cell grid with a single station of value 3 sitting
exactly on cell 0; the interpolated field is defined, its cell-0 value is 3
and its peak is 3. -/
theorem C5_witness :
    ((0:ℕ) < ([((1:ℚ), (2:ℚ)), (5, 9)] : List (ℚ × ℚ)).length ∧
      ([((1:ℚ), (2:ℚ)), (5, 9)] : List (ℚ × ℚ)).getD 0 (0, 0) = (1, 2) ∧
      (0:ℚ) < 3) ∧
    ((∀ cs : List (ℚ × ℚ), interpolate [] cs = some (cs.map fun _ => 0)) ∧
      ∃ field : List ℚ,
        interpolate [⟨1, 2, 3⟩] [((1:ℚ), (2:ℚ)), (5, 9)] = some field ∧
          field.getD 0 0 = 3 ∧ listMax field = 3) :=
  ⟨⟨by norm_num, rfl, by norm_num⟩,
    C5_interpolator_exact [((1:ℚ), (2:ℚ)), (5, 9)] 1 2 3 0 (by norm_num) rfl
      (by norm_num)⟩

/-- C6: evaluation of the Spatial Interpolator at the failing input — a
non-empty filtered reading set in which every station value is 0.  The IDW
accumulation gives the all-zero raw field, `np.max(rain_grid)` is 0, and
`rain_grid /= np.max(rain_grid)` computes `0/0` (float NaN) for every cell:
the output is undefined (`none`), not a non-negative number per cell. -/
theorem C6_all_zero_readings_undefined_field :
    interpolate
        [⟨311/10, 771/10, 0⟩, ⟨312/10, 772/10, 0⟩, ⟨305/10, 715/10, 0⟩]
        [(311/10, 771/10), (32, 78)] = none := by
  norm_num [interpolate, idwRaw, listMax]
  intro h
  simp at h

/-- C3 (amended): holding everything else fixed, the FoS returned by
`compute_fos_vectorized` is monotone non-increasing in the current
saturation provided the cell's friction angle has non-negative tangent
(e.g. `friction_angle ∈ [0°, 90°)`); for a friction angle with negative
tangent the inequality can reverse. -/
theorem C3_fos_monotone_in_saturation
    (slope elev c phi gamma z ksat rain dur s1 s2 : ℝ)
    (hs : s1 ≤ s2) (hphi : 0 ≤ Real.tan (radians phi)) :
    compute_fos slope elev c phi gamma z ksat s2 rain dur
      ≤ compute_fos slope elev c phi gamma z ksat s1 rain dur := by
  have hw_mono :
      min z (max (s1 * z + min (rain * 2.777e-7) ksat * (dur * 3600.0) / 0.3)
          0.0)
        ≤ min z
            (max (s2 * z + min (rain * 2.777e-7) ksat * (dur * 3600.0) / 0.3)
              0.0) := by
    rcases le_or_lt 0 z with hz | hz
    · gcongr
    · rw [min_eq_left (show z ≤
          max (s1 * z + min (rain * 2.777e-7) ksat * (dur * 3600.0) / 0.3)
            0.0 from le_trans hz.le (le_trans (by norm_num)
              (le_max_right _ _))),
        min_eq_left (show z ≤
          max (s2 * z + min (rain * 2.777e-7) ksat * (dur * 3600.0) / 0.3)
            0.0 from le_trans hz.le (le_trans (by norm_num)
              (le_max_right _ _)))]
  simp only [compute_fos, npClipR]
  gcongr

/-- C3 witness: at friction angle 0° (`tan = 0 ≥ 0`) and saturations
`0.2 ≤ 0.3`, the FoS at the wetter state is at most the FoS at the drier
state. -/
theorem C3_witness :
    ((0.2:ℝ) ≤ 0.3 ∧ 0 ≤ Real.tan (radians 0)) ∧
    compute_fos 30 1500 10 0 18 2 1e-6 0.3 0 6
      ≤ compute_fos 30 1500 10 0 18 2 1e-6 0.2 0 6 := by
  have h0 : radians 0 = 0 := by
    rw [radians]
    ring
  have htan : (0:ℝ) ≤ Real.tan (radians 0) := by
    rw [h0, Real.tan_zero]
  exact ⟨⟨by norm_num, htan⟩,
    C3_fos_monotone_in_saturation 30 1500 10 0 18 2 1e-6 0 6 0.2 0.3
      (by norm_num) htan⟩

/-- C3 counterexample: at friction angle −45° (`tan = −1`, a "valid
negative friction" input per the spec), slope 45°, cohesion 40 kPa,
γ = 20 kN/m³, depth 2 m, no rainfall: raising the saturation from 0 to 1
raises the FoS from 1 to 1.4905, so FoS is not monotone non-increasing in
saturation for every cell's static attributes. -/
theorem C3_counterexample :
    ¬ (compute_fos 45 1500 40 (-45) 20 2 0 1 0 6
        ≤ compute_fos 45 1500 40 (-45) 20 2 0 0 0 6) := by
  have hrad45 : radians 45 = Real.pi / 4 := by
    rw [radians]
    ring
  have hradneg : radians (-45) = -(Real.pi / 4) := by
    rw [radians]
    ring
  have htan : Real.tan (radians (-45)) = -1 := by
    rw [hradneg, Real.tan_neg, Real.tan_pi_div_four]
  have ha : Real.sqrt 2 ^ 2 = 2 := Real.sq_sqrt (by norm_num)
  have e1 : compute_fos 45 1500 40 (-45) 20 2 0 0 0 6 = 1 := by
    simp only [compute_fos, npClipR]
    rw [show max (45:ℝ) 0.1 = 45 from max_eq_left (by norm_num),
      show min (89.9:ℝ) 45 = 45 from min_eq_right (by norm_num),
      hrad45, htan, Real.sin_pi_div_four, Real.cos_pi_div_four]
    ring_nf
    simp only [ha]
    norm_num [min_def, max_def]
  have e2 : compute_fos 45 1500 40 (-45) 20 2 0 1 0 6 = 2981 / 2000 := by
    simp only [compute_fos, npClipR]
    rw [show max (45:ℝ) 0.1 = 45 from max_eq_left (by norm_num),
      show min (89.9:ℝ) 45 = 45 from min_eq_right (by norm_num),
      hrad45, htan, Real.sin_pi_div_four, Real.cos_pi_div_four]
    ring_nf
    simp only [ha]
    norm_num [min_def, max_def]
  rw [e1, e2]
  norm_num

end EDGE
